import Mathlib

/-!
Verification development for the StarCluster EC2/S3 utility module
(starcluster/awsutils.py).

The module is a thin wrapper over a compute API (EC2) and a storage API
(S3).  The one piece of genuine control logic is the image-deletion
workflow (remove_image / remove_image_files), which we embed shallowly:
the external collaborators (image lookup, bucket listing, object delete)
are a record of functions over an abstract storage state, and each
modelled method returns a trace of observable actions together with the
final storage state and an outcome.  String manipulation on an image
location (split on slash, basename, stripping the manifest suffix) is
embedded as structurally recursive functions over character lists so
that every definition evaluates by kernel reduction.
-/

/-- An EC2 machine image record.  Only the attributes that the modelled
methods read are kept: the identifier and the location string of the
form bucket/path.manifest.xml. -/
structure Image where
  id : String
  location : String
deriving DecidableEq, Repr

/-- Observable actions of the image-deletion workflow.  deleteFile is
the storage-object delete call (line 191, file.delete()); deregister is
the compute-API deregister call (line 224, conn.deregister_image);
printFile is the dry-run print of a file (line 188); logError and
logInfo are the log lines. -/
inductive Event where
  | deleteFile (key : String)
  | printFile (key : String)
  | deregister (ami : String)
  | logError (msg : String)
  | logInfo (msg : String)
deriving DecidableEq, Repr

/-- How a modelled call ended: normal return, a Python exception, or the
recursion-depth budget of the model ran out (the Python source has no
such budget: it recurses without bound, so fuelOut means the source is
still recursing after that many nested calls). -/
inductive Outcome where
  | ok
  | crashed (msg : String)
  | fuelOut
deriving DecidableEq, Repr

/-- Result of running a modelled method: the trace of events it emitted,
the final storage state, and how it ended. -/
structure RunResult (σ : Type) where
  trace : List Event
  state : σ
  outcome : Outcome

/-- The external collaborators, over an abstract storage state σ:
lookupImages models conn.get_all_images(image_ids=[id]) (a static query;
image records only change at deregister, which is the last step);
listKeys models s3.get_bucket(b) followed by bucket.list(prefix=p),
returning none when get_bucket raises because the bucket is missing;
delete models key.delete() on a storage object of a bucket. -/
structure Env (σ : Type) where
  lookupImages : String → List Image
  listKeys : σ → String → String → Option (List String)
  delete : σ → String → String → σ

/-- Characters of a string before the first slash: the translation of
location.split(slash)[0] from line 245. -/
def takeUntilSlash : List Char → List Char
  | [] => []
  | c :: cs => if c = '/' then [] else c :: takeUntilSlash cs

/-- location.split(slash)[0]: the bucket name derived from an image
location (line 245). -/
def bucketNameOf (loc : String) : String :=
  ⟨takeUntilSlash loc.data⟩

/-- os.path.basename: the characters after the last slash (line 247). -/
def basename (p : String) : String :=
  ⟨(p.data.reverse.takeWhile (fun c => c ≠ '/')).reverse⟩

/-- Characters before the first occurrence of the separator sequence:
the translation of s.split(sep)[0] for a multi-character separator. -/
def takeBeforeSep (sep : List Char) : List Char → List Char
  | [] => []
  | c :: cs => if sep.isPrefixOf (c :: cs) then [] else c :: takeBeforeSep sep cs

/-- s.split(manifest-suffix)[0] from line 247: the text before the first
occurrence of .manifest.xml. -/
def stripManifestSuffix (s : String) : String :=
  ⟨takeBeforeSep ".manifest.xml".data s.data⟩

/-- The key pattern of the backing files of an image: basename of the
location with the manifest suffix stripped (line 247). -/
def filePatOf (img : Image) : String :=
  stripManifestSuffix (basename img.location)

/-- Python startswith, via structural list recursion. -/
def strStartsWith (pat s : String) : Bool :=
  pat.data.isPrefixOf s.data

/-- EasyEC2.get_image (lines 237-241): conn.get_all_images with the
single requested id, returning element [0] and turning the IndexError
on an empty result into None. -/
def get_image {σ : Type} (env : Env σ) (image_id : String) : Option Image :=
  (env.lookupImages image_id).head?

/-- EasyEC2.get_image_files (lines 243-249): refetch the image, derive
the bucket name from the location text before the first slash, and list
the keys of that bucket that start with the stripped basename of the
location.  none models the Python crash when the image is missing
(AttributeError on None) or the bucket lookup raises. -/
def get_image_files {σ : Type} (env : Env σ) (s : σ) (image_id : String) :
    Option (List String) :=
  match get_image env image_id with
  | none => none
  | some image => env.listKeys s (bucketNameOf image.location) (filePatOf image)

/-- The for-loop of remove_image_files (lines 186-191): print each file
in pretend mode, otherwise delete each file from its bucket, threading
the storage state. -/
def deleteLoop {σ : Type} (env : Env σ) (bkt : String) (pretend : Bool) :
    List String → σ → List Event × σ
  | [], s => ([], s)
  | k :: ks, s =>
    if pretend then
      let r := deleteLoop env bkt pretend ks s
      (Event.printFile k :: r.1, r.2)
    else
      let r := deleteLoop env bkt pretend ks (env.delete s bkt k)
      (Event.deleteFile k :: r.1, r.2)

/-- EasyEC2.remove_image_files (lines 179-201).  The fuel argument is a
model artifact bounding the recursion depth of the source (which has no
bound of its own): at fuel 0 the model stops with fuelOut, meaning the
source would still be recursing.  The local bucket variable of line 184
is dead code in the source and is omitted.  After the loop the files
are re-listed (line 194); if any remain, pretend mode logs and returns
(lines 196-198) while live mode logs and recurses with the same
arguments (lines 199-201). -/
def remove_image_files {σ : Type} (env : Env σ) (image_name : String)
    (pretend : Bool) : Nat → σ → RunResult σ
  | 0, s => ⟨[], s, Outcome.fuelOut⟩
  | fuel + 1, s =>
    match get_image env image_name with
    | none => ⟨[Event.logError ("cannot remove AMI " ++ image_name)], s, Outcome.ok⟩
    | some image =>
      match get_image_files env s image_name with
      | none => ⟨[], s, Outcome.crashed "storage error while listing image files"⟩
      | some files =>
        let d := deleteLoop env (bucketNameOf image.location) pretend files s
        match get_image_files env d.2 image_name with
        | none => ⟨d.1, d.2, Outcome.crashed "storage error while listing image files"⟩
        | some files2 =>
          if files2.length ≠ 0 then
            if pretend then
              ⟨d.1 ++ [Event.logInfo "Not all files deleted, would recurse...exiting"],
               d.2, Outcome.ok⟩
            else
              let r := remove_image_files env image_name pretend fuel d.2
              ⟨d.1 ++ Event.logInfo "Not all files deleted, recursing..." :: r.trace,
               r.state, r.outcome⟩
          else ⟨d.1, d.2, Outcome.ok⟩

/-- EasyEC2.remove_image (lines 203-224).  When the image is missing it
only logs an error (lines 206-208).  When pretend is true, line 210
formats the message with the name imageid, which is unbound in that
scope, so Python raises NameError there, before any file removal or
deregistration.  Otherwise it logs, runs remove_image_files, and then
deregisters the image id (lines 218-224); an abnormal end of
remove_image_files propagates and the deregister step is not reached.
The print_timing decorator only measures wall-clock time and is not
modelled. -/
def remove_image {σ : Type} (env : Env σ) (image_name : String)
    (pretend : Bool) (fuel : Nat) (s : σ) : RunResult σ :=
  match get_image env image_name with
  | none => ⟨[Event.logError ("AMI " ++ image_name ++ " does not exist")], s, Outcome.ok⟩
  | some image =>
    if pretend then
      ⟨[], s, Outcome.crashed "NameError: name imageid is not defined"⟩
    else
      let hd := [Event.logInfo ("Removing AMI: " ++ image_name),
                 Event.logInfo "Removing image files..."]
      let r := remove_image_files env image_name pretend fuel s
      match r.outcome with
      | Outcome.ok =>
        if pretend then
          ⟨hd ++ r.trace ++ [Event.logInfo ("Would run deregister_image for ami: " ++ image.id ++ ")")],
           r.state, Outcome.ok⟩
        else
          ⟨hd ++ r.trace ++ [Event.logInfo ("Deregistering ami: " ++ image.id),
                             Event.deregister image.id],
           r.state, Outcome.ok⟩
      | out => ⟨hd ++ r.trace, r.state, out⟩

/-- Result of EasyEC2.get_registered_image (lines 57-62): a TypeError
for a malformed identifier, the first registered image with the
requested id, or None when the loop finds nothing. -/
inductive RegLookup where
  | typeError (msg : String)
  | found (img : Image)
  | noneFound
deriving DecidableEq, Repr

/-- EasyEC2.get_registered_image (lines 57-62): validate the identifier
shape (startswith ami and length exactly 12) before touching
registered_images, then scan the registered images for the id.  The
returned Bool records whether the registered_images property (the
remote get_all_images call) was evaluated. -/
def get_registered_image (registered : List Image) (image_id : String) :
    RegLookup × Bool :=
  if ¬ (strStartsWith "ami" image_id = true) ∨ image_id.length ≠ 12 then
    (RegLookup.typeError ("invalid AMI name/id requested: " ++ image_id), false)
  else
    match registered.find? (fun img => img.id == image_id) with
    | some img => (RegLookup.found img, true)
    | none => (RegLookup.noneFound, true)

/-- Bool test for a storage delete event. -/
def isDeleteEvent : Event → Bool
  | Event.deleteFile _ => true
  | _ => false

/-- Bool test for a deregister event. -/
def isDeregEvent : Event → Bool
  | Event.deregister _ => true
  | _ => false

/-- Concrete storage state: each bucket is a name paired with the list
of its keys (keys are unique within a bucket). -/
def S3State : Type := List (String × List String)

/-- Concrete bucket listing with a key pattern: the standard storage
semantics of Bucket.list(prefix=p), returning the keys of the bucket
that start with p, and none when the bucket does not exist. -/
def s3List (bs : S3State) (bucket : String) (pat : String) :
    Option (List String) :=
  match bs.find? (fun b => b.1 == bucket) with
  | none => none
  | some b => some (b.2.filter (fun k => strStartsWith pat k))

/-- Concrete storage delete: remove the key from the named bucket. -/
def s3Delete (bs : S3State) (bucket : String) (key : String) : S3State :=
  bs.map (fun b => if b.1 == bucket then (b.1, b.2.filter (fun k => k != key)) else b)

/-- Environment over the concrete storage model, for a given image
directory. -/
def s3Env (images : String → List Image) : Env S3State :=
  ⟨images, s3List, s3Delete⟩

/-- A demonstration image used by the concrete scenarios. -/
def demoImage : Image :=
  ⟨"ami-123456789012", "mybucket/img.manifest.xml"⟩

/-- Image directory holding exactly the demonstration image. -/
def demoImages : String → List Image :=
  fun n => if n == "ami-123456789012" then [demoImage] else []

/-- Concrete storage with one bucket holding the two backing parts of
the demonstration image and one unrelated key. -/
def demoS3 : S3State :=
  [("mybucket", ["img.part.0", "img.part.1", "other.txt"])]

/-- A storage backend that never empties: every listing returns the
same non-empty key set and deletes have no effect (a simulated
permanently failing delete).  The image lookup finds the demonstration
image. -/
def stuckEnv : Env Unit :=
  ⟨demoImages, fun _ _ _ => some ["img.part.0"], fun _ _ _ => ()⟩

/-- Concrete storage whose bucket holds no key matching the
demonstration image pattern. -/
def demoS3Empty : S3State :=
  [("mybucket", ["other.txt"])]

/-- EasyAWS.__init__ state (lines 18-30): credentials, the
connection_authenticator function, and the memoized connection field
_conn (here cachedConn), over an abstract handle type H. -/
structure EasyAWS (H : Type) where
  aws_access_key : String
  aws_secret_access_key : String
  connection_authenticator : String → String → H
  cachedConn : Option H

/-- EasyAWS.__init__ (lines 19-30): stores the credentials and the
authenticator and sets _conn to None.  The authenticator is not
invoked. -/
def mkEasyAWS (H : Type) (keyId secret : String) (auth : String → String → H) :
    EasyAWS H :=
  ⟨keyId, secret, auth, none⟩

/-- Observation of one access to the conn property: the handle
returned, the object state afterwards, and whether the authenticator
was invoked during this access. -/
structure ConnAccess (H : Type) where
  handle : H
  obj : EasyAWS H
  authInvoked : Bool

/-- The EasyAWS.conn property (lines 32-38): when _conn is None, invoke
the connection_authenticator on the stored credentials, memoize the
handle, and return it; otherwise return the memoized handle without
invoking anything. -/
def connAccess {H : Type} (a : EasyAWS H) : ConnAccess H :=
  match a.cachedConn with
  | none =>
    let h := a.connection_authenticator a.aws_access_key a.aws_secret_access_key
    ⟨h, { a with cachedConn := some h }, true⟩
  | some h => ⟨h, a, false⟩

/-- C2: for every environment, image identifier, recursion budget and
storage state, remove_image with pretend=true emits no storage delete
event and no deregister event, and leaves the storage state unchanged:
the dry run never invokes a delete call or the deregister operation,
whether or not the image exists and however the run ends. -/
theorem remove_image_pretend_no_mutation {σ : Type} (env : Env σ) (name : String)
    (fuel : Nat) (s : σ) :
    (remove_image env name true fuel s).trace.all
      (fun e => !(isDeleteEvent e) && !(isDeregEvent e)) = true ∧
    (remove_image env name true fuel s).state = s := by
  cases h : get_image env name <;>
    simp [remove_image, h, isDeleteEvent, isDeregEvent]

/-- C10: for every environment in which the image lookup succeeds,
remove_image with pretend=true ends in the NameError raised by the
dry-run log line that references the unbound name imageid, with an
empty trace and an unchanged state: the dry run on an existing image
never reaches the file-removal phase or the deregister step and never
completes normally. -/
theorem remove_image_pretend_name_error {σ : Type} (env : Env σ) (name : String)
    (img : Image) (fuel : Nat) (s : σ) (himg : get_image env name = some img) :
    remove_image env name true fuel s =
      ⟨[], s, Outcome.crashed "NameError: name imageid is not defined"⟩ := by
  simp [remove_image, himg]

theorem remove_image_pretend_name_error_witness :
    remove_image (s3Env demoImages) "ami-123456789012" true 3 demoS3 =
      ⟨[], demoS3, Outcome.crashed "NameError: name imageid is not defined"⟩ :=
  remove_image_pretend_name_error (s3Env demoImages) "ami-123456789012" demoImage 3
    demoS3 (by decide)

/-- C8: for every environment in which the image lookup yields nothing,
remove_image returns after only logging an error, and likewise
remove_image_files (at any positive recursion budget): the state is
unchanged and the trace holds no delete, print or deregister event. -/
theorem remove_image_not_found_no_effects {σ : Type} (env : Env σ) (name : String)
    (pretend : Bool) (fuel : Nat) (s : σ) (hnone : get_image env name = none) :
    remove_image env name pretend fuel s =
      ⟨[Event.logError ("AMI " ++ name ++ " does not exist")], s, Outcome.ok⟩ ∧
    remove_image_files env name pretend (fuel + 1) s =
      ⟨[Event.logError ("cannot remove AMI " ++ name)], s, Outcome.ok⟩ := by
  constructor
  · simp [remove_image, hnone]
  · simp [remove_image_files, hnone]

theorem remove_image_not_found_no_effects_witness :
    remove_image (s3Env demoImages) "ami-nosuchthing" false 3 demoS3 =
      ⟨[Event.logError "AMI ami-nosuchthing does not exist"], demoS3, Outcome.ok⟩ ∧
    remove_image_files (s3Env demoImages) "ami-nosuchthing" false 4 demoS3 =
      ⟨[Event.logError "cannot remove AMI ami-nosuchthing"], demoS3, Outcome.ok⟩ :=
  remove_image_not_found_no_effects (s3Env demoImages) "ami-nosuchthing" false 3
    demoS3 (by decide)

/-- C5: get_image returns the first image of the remote lookup result
when that result is non-empty, and the not-found sentinel none, without
raising, when the result is empty. -/
theorem get_image_head_or_none {σ : Type} (env : Env σ) (image_id : String)
    (img : Image) (rest : List Image) :
    (env.lookupImages image_id = img :: rest → get_image env image_id = some img) ∧
    (env.lookupImages image_id = [] → get_image env image_id = none) := by
  constructor <;> intro h <;> simp [get_image, h]

theorem get_image_head_or_none_witness :
    get_image (s3Env demoImages) "ami-123456789012" = some demoImage ∧
    get_image (s3Env demoImages) "ami-nosuchthing" = none :=
  ⟨(get_image_head_or_none (s3Env demoImages) "ami-123456789012" demoImage []).1
      (by decide),
   (get_image_head_or_none (s3Env demoImages) "ami-nosuchthing" demoImage []).2
      (by decide)⟩

/-- C4: for every identifier that does not start with ami or whose
length is not exactly 12, get_registered_image raises the TypeError
for an invalid AMI name without evaluating registered_images (no remote
call), while for every well-shaped identifier it never raises that
error and does evaluate registered_images; the invalid-shape failure is
therefore a distinct outcome from the not-found result. -/
theorem get_registered_image_shape_check (registered : List Image) (image_id : String) :
    ((¬ strStartsWith "ami" image_id = true ∨ image_id.length ≠ 12) →
      get_registered_image registered image_id =
        (RegLookup.typeError ("invalid AMI name/id requested: " ++ image_id), false)) ∧
    ((strStartsWith "ami" image_id = true ∧ image_id.length = 12) →
      (∀ msg, (get_registered_image registered image_id).1 ≠ RegLookup.typeError msg) ∧
      (get_registered_image registered image_id).2 = true) := by
  constructor
  · intro h
    simp only [get_registered_image, if_pos h]
  · rintro ⟨h1, h2⟩
    have hcond : ¬ (¬ strStartsWith "ami" image_id = true ∨ image_id.length ≠ 12) := by
      push_neg
      exact ⟨h1, h2⟩
    simp only [get_registered_image, if_neg hcond]
    cases registered.find? (fun img => img.id == image_id) <;> simp

theorem get_registered_image_shape_check_witness :
    get_registered_image [demoImage] "foo" =
      (RegLookup.typeError "invalid AMI name/id requested: foo", false) ∧
    (get_registered_image [demoImage] "ami-12345678").2 = true :=
  ⟨(get_registered_image_shape_check [demoImage] "foo").1 (by decide),
   ((get_registered_image_shape_check [demoImage] "ami-12345678").2 (by decide)).2⟩

/-- C9: the connection handle is lazy and memoized.  Construction
stores no handle and invokes no authenticator; the first access to the
conn property invokes the authenticator (once, on the stored
credentials) and memoizes the resulting handle; and every access to an
object that already holds a handle returns that same handle, leaves the
object unchanged, and does not invoke the authenticator. -/
theorem conn_lazy_memoized {H : Type} (keyId secret : String)
    (auth : String → String → H) :
    (mkEasyAWS H keyId secret auth).cachedConn = none ∧
    (connAccess (mkEasyAWS H keyId secret auth)).authInvoked = true ∧
    (connAccess (mkEasyAWS H keyId secret auth)).handle = auth keyId secret ∧
    (connAccess (mkEasyAWS H keyId secret auth)).obj.cachedConn = some (auth keyId secret) ∧
    (∀ (a : EasyAWS H) (h : H), a.cachedConn = some h → connAccess a = ⟨h, a, false⟩) := by
  refine ⟨rfl, rfl, rfl, rfl, ?_⟩
  intro a h hmem
  simp [connAccess, hmem]

theorem conn_lazy_memoized_witness :
    connAccess (connAccess (mkEasyAWS Nat "key" "secret" (fun _ _ => 7))).obj =
      ⟨7, (connAccess (mkEasyAWS Nat "key" "secret" (fun _ _ => 7))).obj, false⟩ :=
  (conn_lazy_memoized "key" "secret" (fun _ _ => 7)).2.2.2.2
    (connAccess (mkEasyAWS Nat "key" "secret" (fun _ _ => 7))).obj 7 rfl

/-- C6: for every environment and storage state in which the image
exists and its backing-file listing is empty, remove_image with
pretend=false performs zero storage delete calls (no delete event, and
the state is unchanged) and still proceeds to deregister the image
record, ending normally. -/
theorem remove_image_empty_fileset {σ : Type} (env : Env σ) (name : String)
    (img : Image) (fuel : Nat) (s : σ)
    (himg : get_image env name = some img)
    (hempty : get_image_files env s name = some []) :
    (remove_image env name false (fuel + 1) s).trace.all
      (fun e => !(isDeleteEvent e)) = true ∧
    Event.deregister img.id ∈ (remove_image env name false (fuel + 1) s).trace ∧
    (remove_image env name false (fuel + 1) s).state = s ∧
    (remove_image env name false (fuel + 1) s).outcome = Outcome.ok := by
  have hrif : remove_image_files env name false (fuel + 1) s = ⟨[], s, Outcome.ok⟩ := by
    simp [remove_image_files, himg, hempty, deleteLoop]
  simp [remove_image, himg, hrif, isDeleteEvent]

theorem remove_image_empty_fileset_witness :
    (remove_image (s3Env demoImages) "ami-123456789012" false 3 demoS3Empty).trace.all
      (fun e => !(isDeleteEvent e)) = true ∧
    Event.deregister demoImage.id ∈
      (remove_image (s3Env demoImages) "ami-123456789012" false 3 demoS3Empty).trace ∧
    (remove_image (s3Env demoImages) "ami-123456789012" false 3 demoS3Empty).state =
      demoS3Empty ∧
    (remove_image (s3Env demoImages) "ami-123456789012" false 3 demoS3Empty).outcome =
      Outcome.ok :=
  remove_image_empty_fileset (s3Env demoImages) "ami-123456789012" demoImage 2
    demoS3Empty (by decide) (by decide)

/-- C7: over the concrete storage model, for every existing image whose
bucket (the text of the location before the first slash) is present,
get_image_files returns exactly the keys of that bucket that start with
the basename of the location with the manifest suffix stripped, and
membership in the returned list is equivalent to membership in the
bucket together with that start-of-key test: the key pattern match is
the sole membership criterion. -/
theorem get_image_files_sole_criterion (images : String → List Image) (bs : S3State)
    (image_id : String) (img : Image) (bname : String) (keys : List String)
    (himg : get_image (s3Env images) image_id = some img)
    (hbkt : bs.find? (fun b => b.1 == bucketNameOf img.location) = some (bname, keys)) :
    get_image_files (s3Env images) bs image_id =
      some (keys.filter (fun k => strStartsWith (filePatOf img) k)) ∧
    ∀ k, k ∈ keys.filter (fun k => strStartsWith (filePatOf img) k) ↔
      k ∈ keys ∧ strStartsWith (filePatOf img) k = true := by
  constructor
  · unfold get_image_files
    rw [himg]
    simp [s3Env, s3List, hbkt]
  · intro k
    simp [List.mem_filter]

theorem get_image_files_sole_criterion_witness :
    get_image_files (s3Env demoImages) demoS3 "ami-123456789012" =
      some ["img.part.0", "img.part.1"] ∧
    ∀ k, k ∈ (["img.part.0", "img.part.1", "other.txt"].filter
        (fun k => strStartsWith (filePatOf demoImage) k)) ↔
      k ∈ ["img.part.0", "img.part.1", "other.txt"] ∧
        strStartsWith (filePatOf demoImage) k = true :=
  ⟨((get_image_files_sole_criterion demoImages demoS3 "ami-123456789012" demoImage
      "mybucket" ["img.part.0", "img.part.1", "other.txt"] (by decide) (by decide)).1).trans
      (by decide),
   (get_image_files_sole_criterion demoImages demoS3 "ami-123456789012" demoImage
      "mybucket" ["img.part.0", "img.part.1", "other.txt"] (by decide) (by decide)).2⟩

/-- Helper: events of the delete loop are only printFile or deleteFile,
so never a deregister event. -/
theorem deleteLoop_no_dereg {σ : Type} (env : Env σ) (bkt : String) (pretend : Bool) :
    ∀ (ks : List String) (s : σ) (e : Event),
      e ∈ (deleteLoop env bkt pretend ks s).1 → isDeregEvent e = false := by
  intro ks
  induction ks with
  | nil =>
    intro s e he
    simp [deleteLoop] at he
  | cons k ks ih =>
    intro s e he
    cases pretend <;> simp only [deleteLoop, if_true, if_false, Bool.false_eq_true,
      ite_false, ite_true, List.mem_cons] at he <;> rcases he with rfl | he
    · rfl
    · exact ih _ _ he
    · rfl
    · exact ih _ _ he

/-- Helper: remove_image_files never emits a deregister event at any
recursion depth: only the remove_image wrapper deregisters. -/
theorem remove_image_files_no_dereg {σ : Type} (env : Env σ) (name : String)
    (pretend : Bool) :
    ∀ (fuel : Nat) (s : σ) (e : Event),
      e ∈ (remove_image_files env name pretend fuel s).trace → isDeregEvent e = false := by
  intro fuel
  induction fuel with
  | zero =>
    intro s e he
    simp [remove_image_files] at he
  | succ fuel ih =>
    intro s e he
    simp only [remove_image_files] at he
    split at he
    · simp at he
      subst he
      rfl
    · split at he
      · simp at he
      · split at he
        · exact deleteLoop_no_dereg env _ pretend _ _ e he
        · split at he
          · split at he
            · rcases List.mem_append.1 he with h | h
              · exact deleteLoop_no_dereg env _ pretend _ _ e h
              · simp at h
                subst h
                rfl
            · rcases List.mem_append.1 he with h | h
              · exact deleteLoop_no_dereg env _ pretend _ _ e h
              · rcases List.mem_cons.1 h with rfl | h
                · rfl
                · exact ih _ _ h
          · exact deleteLoop_no_dereg env _ pretend _ _ e he

/-- Helper: in a concatenation whose front holds no deregister event
and whose tail holds no delete event, every delete position is strictly
below every deregister position. -/
theorem delete_lt_dereg_of_split (l1 l2 : List Event) (i j : Nat) (k a : String)
    (h1 : ∀ e ∈ l1, isDeregEvent e = false)
    (h2 : ∀ e ∈ l2, isDeleteEvent e = false)
    (hdel : (l1 ++ l2)[i]? = some (Event.deleteFile k))
    (hder : (l1 ++ l2)[j]? = some (Event.deregister a)) :
    i < j := by
  have hi : i < l1.length := by
    by_contra hge
    push_neg at hge
    rw [List.getElem?_append_right hge] at hdel
    have hmem := h2 _ (List.getElem?_mem hdel)
    simp [isDeleteEvent] at hmem
  have hj : l1.length ≤ j := by
    by_contra hlt
    push_neg at hlt
    rw [List.getElem?_append_left hlt] at hder
    have hmem := h1 _ (List.getElem?_mem hder)
    simp [isDeregEvent] at hmem
  omega

/-- C3: in every execution of remove_image with pretend=false, every
storage delete event in the trace occurs at a strictly smaller position
than any deregister event: files are always addressed before the image
record is deregistered, and the deregister call is never issued before
the file-deletion phase has run. -/
theorem remove_image_delete_before_deregister {σ : Type} (env : Env σ) (name : String)
    (fuel : Nat) (s : σ) (i j : Nat) (k a : String)
    (hdel : (remove_image env name false fuel s).trace[i]? = some (Event.deleteFile k))
    (hder : (remove_image env name false fuel s).trace[j]? = some (Event.deregister a)) :
    i < j := by
  obtain ⟨l1, l2, htr, h1, h2⟩ :
      ∃ l1 l2, (remove_image env name false fuel s).trace = l1 ++ l2 ∧
        (∀ e ∈ l1, isDeregEvent e = false) ∧ (∀ e ∈ l2, isDeleteEvent e = false) := by
    cases hgi : get_image env name with
    | none =>
      refine ⟨[Event.logError ("AMI " ++ name ++ " does not exist")], [], ?_, ?_, ?_⟩
      · simp [remove_image, hgi]
      · intro e he
        simp at he
        subst he
        rfl
      · intro e he
        simp at he
    | some image =>
      cases hout : (remove_image_files env name false fuel s).outcome with
      | ok =>
        refine ⟨[Event.logInfo ("Removing AMI: " ++ name),
                 Event.logInfo "Removing image files..."] ++
                  (remove_image_files env name false fuel s).trace,
                [Event.logInfo ("Deregistering ami: " ++ image.id),
                 Event.deregister image.id], ?_, ?_, ?_⟩
        · simp only [remove_image]
          rw [hgi]
          simp only [Bool.false_eq_true, if_false, ite_false]
          rw [hout]
        · intro e he
          rcases List.mem_append.1 he with h | h
          · simp at h
            rcases h with rfl | rfl <;> rfl
          · exact remove_image_files_no_dereg env name false fuel s e h
        · intro e he
          simp at he
          rcases he with rfl | rfl <;> rfl
      | crashed msg =>
        refine ⟨[Event.logInfo ("Removing AMI: " ++ name),
                 Event.logInfo "Removing image files..."] ++
                  (remove_image_files env name false fuel s).trace, [], ?_, ?_, ?_⟩
        · simp only [remove_image]
          rw [hgi]
          simp only [Bool.false_eq_true, if_false, ite_false]
          rw [hout]
          simp
        · intro e he
          rcases List.mem_append.1 he with h | h
          · simp at h
            rcases h with rfl | rfl <;> rfl
          · exact remove_image_files_no_dereg env name false fuel s e h
        · intro e he
          simp at he
      | fuelOut =>
        refine ⟨[Event.logInfo ("Removing AMI: " ++ name),
                 Event.logInfo "Removing image files..."] ++
                  (remove_image_files env name false fuel s).trace, [], ?_, ?_, ?_⟩
        · simp only [remove_image]
          rw [hgi]
          simp only [Bool.false_eq_true, if_false, ite_false]
          rw [hout]
          simp
        · intro e he
          rcases List.mem_append.1 he with h | h
          · simp at h
            rcases h with rfl | rfl <;> rfl
          · exact remove_image_files_no_dereg env name false fuel s e h
        · intro e he
          simp at he
  rw [htr] at hdel hder
  exact delete_lt_dereg_of_split l1 l2 i j k a h1 h2 hdel hder

theorem remove_image_delete_before_deregister_witness : (2 : Nat) < 5 ∧ (3 : Nat) < 5 :=
  ⟨remove_image_delete_before_deregister (s3Env demoImages) "ami-123456789012" 3 demoS3
      2 5 "img.part.0" "ami-123456789012" (by decide) (by decide),
   remove_image_delete_before_deregister (s3Env demoImages) "ami-123456789012" 3 demoS3
      3 5 "img.part.1" "ami-123456789012" (by decide) (by decide)⟩

/-- Helper: one unfolding of remove_image_files on the never-emptying
store: it deletes the listed file (with no effect), re-lists the same
non-empty set, logs, and recurses with one less unit of budget. -/
theorem remove_image_files_stuck_step (fuel : Nat) :
    remove_image_files stuckEnv "ami-123456789012" false (fuel + 1) () =
      ⟨Event.deleteFile "img.part.0" ::
         Event.logInfo "Not all files deleted, recursing..." ::
         (remove_image_files stuckEnv "ami-123456789012" false fuel ()).trace,
       (remove_image_files stuckEnv "ami-123456789012" false fuel ()).state,
       (remove_image_files stuckEnv "ami-123456789012" false fuel ()).outcome⟩ :=
  rfl

/-- C1 (the source has no retry bound): on a backing store that never
empties (every re-enumeration after a delete still returns the same
non-empty key set), remove_image with pretend=false exhausts every
recursion budget: for every depth bound the run is still recursing
(outcome fuelOut), it never returns normally, it never reports any
completion or incompleteness, and it never reaches the deregister
step.  The code recurses unboundedly instead of stopping within a
configured retry bound with a DeletionIncomplete report; no such bound
or report exists in the source. -/
theorem remove_image_stuck_store_unbounded (fuel : Nat) :
    (remove_image stuckEnv "ami-123456789012" false fuel ()).outcome = Outcome.fuelOut ∧
    ∀ e ∈ (remove_image stuckEnv "ami-123456789012" false fuel ()).trace,
      isDeregEvent e = false := by
  have hrif : ∀ (n : Nat),
      (remove_image_files stuckEnv "ami-123456789012" false n ()).outcome =
        Outcome.fuelOut := by
    intro n
    induction n with
    | zero => rfl
    | succ n ih =>
      rw [remove_image_files_stuck_step]
      exact ih
  have hgi : get_image stuckEnv "ami-123456789012" = some demoImage := rfl
  constructor
  · simp only [remove_image]
    rw [hgi]
    simp only [Bool.false_eq_true, if_false, ite_false]
    rw [hrif fuel]
  · simp only [remove_image]
    rw [hgi]
    simp only [Bool.false_eq_true, if_false, ite_false]
    rw [hrif fuel]
    intro e he
    rcases List.mem_append.1 he with h | h
    · simp at h
      rcases h with rfl | rfl <;> rfl
    · exact remove_image_files_no_dereg stuckEnv "ami-123456789012" false fuel () e h
